import Mathlib

/-!
Shallow embedding of the BananaBrain DQN agent (src/dqn_agent.py, src/model.py).

Numeric tensors are modelled over ℚ; a parameter tensor is a `List ℚ` (a vector)
or a `List (List ℚ)` (a weight matrix).  PyTorch autograd, the Adam optimizer and
its internal state are abstracted as an explicit state-passing update function
`gu : O → QNetwork → Batch → Vec → O × QNetwork` supplied to `Agent.learn`
(`O` is the optimizer state; the function models: forward pass of the local net,
SmoothL1 loss against the fixed targets `y`, `zero_grad`, `backward`,
`optimizer.step`).  The two sources of randomness are passed as oracles:
`pick : ℕ → ℕ` models the index choices of `random.sample`, and in `Agent.act`
the rational `r` models the draw of `random.random()` (a value in `[0,1)`)
while `randA` models the draw of `random.choice(np.arange(action_size))`.
-/

/-- BUFFER_SIZE from dqn_agent.py line 10: replay buffer size `int(1e5)`. -/
def BUFFER_SIZE : ℕ := 100000

/-- BATCH_SIZE from dqn_agent.py line 11: minibatch size. -/
def BATCH_SIZE : ℕ := 64

/-- GAMMA from dqn_agent.py line 12: discount factor 0.99. -/
def GAMMA : ℚ := 99 / 100

/-- TAU from dqn_agent.py line 13: soft update blend factor 1e-3. -/
def TAU : ℚ := 1 / 1000

/-- LR from dqn_agent.py line 14: learning rate 5e-4 (consumed by the abstract
optimizer, so unused by the rest of the embedding). -/
def LR : ℚ := 5 / 10000

/-- UPDATE_EVERY from dqn_agent.py line 15: learn every 4 steps. -/
def UPDATE_EVERY : ℕ := 4

/-- Vector of rationals, modelling a 1-d float tensor. -/
abbrev Vec := List ℚ

/-- Weight matrix of rationals, modelling a 2-d float tensor (rows of weights). -/
abbrev Mat := List Vec

/-- Dot product of two vectors (zip-truncating, as the shapes always agree in
the source). -/
def dot (a b : Vec) : ℚ := (List.zipWith (fun x y => x * y) a b).sum

/-- An `nn.Linear` layer: each output coordinate is a row dot the input plus
the bias entry. -/
def linear (w : Mat) (b : Vec) (x : Vec) : Vec :=
  List.zipWith (fun row bi => dot row x + bi) w b

/-- F.leaky_relu with the default negative slope 0.01. -/
def leakyRelu (x : ℚ) : ℚ := if x < 0 then (1 / 100) * x else x

/-- QNetwork parameters from model.py: four linear layers fc1..fc4.
The construction `QNetwork(state_size, action_size, seed)` calls
`torch.manual_seed(seed)` before creating the layers, so the initial weights
are a deterministic function of the constructor arguments; `Agent.init` below
takes that deterministic initializer as the explicit argument `initW`. -/
structure QNetwork where
  fc1w : Mat
  fc1b : Vec
  fc2w : Mat
  fc2b : Vec
  fc3w : Mat
  fc3b : Vec
  fc4w : Mat
  fc4b : Vec
deriving DecidableEq

/-- QNetwork.forward from model.py lines 25-33: three leaky-relu hidden layers
and a linear output layer. -/
def QNetwork.forward (net : QNetwork) (state : Vec) : Vec :=
  let l1 := (linear net.fc1w net.fc1b state).map leakyRelu
  let l2 := (linear net.fc2w net.fc2b l1).map leakyRelu
  let l3 := (linear net.fc3w net.fc3b l2).map leakyRelu
  linear net.fc4w net.fc4b l3

/-- Experience namedtuple from dqn_agent.py line 148:
(state, action, reward, next_state, done). -/
structure Experience where
  state : Vec
  action : ℕ
  reward : ℚ
  next_state : Vec
  done : Bool
deriving DecidableEq

instance : Inhabited Experience := ⟨⟨[], 0, 0, [], false⟩⟩

/-- Column-oriented batch, as produced by the `np.vstack` lines of
ReplayBuffer.sample (dqn_agent.py lines 160-164): five aligned columns, with
`done` flags converted to 0/1 floats. -/
structure Batch where
  states : List Vec
  actions : List ℕ
  rewards : Vec
  next_states : List Vec
  dones : Vec
deriving DecidableEq

/-- Columnization performed by ReplayBuffer.sample (dqn_agent.py lines
160-164): stack each field, converting the boolean done flag through
`astype(np.uint8)` then float, i.e. to 0 or 1. -/
def toBatch (es : List Experience) : Batch :=
  { states := es.map Experience.state
  , actions := es.map Experience.action
  , rewards := es.map Experience.reward
  , next_states := es.map Experience.next_state
  , dones := es.map (fun e => if e.done then (1 : ℚ) else 0) }

/-- Append on a `collections.deque` with `maxlen`: append on the right and, if
capacity is exceeded, discard from the left (the oldest entries).  List head is
the oldest element. -/
def dequeAppend {α : Type} (maxlen : ℕ) (q : List α) (x : α) : List α :=
  let q2 := q ++ [x]
  q2.drop (q2.length - maxlen)

/-- ReplayBuffer from dqn_agent.py lines 132-170.  `memory` is the deque with
`maxlen = buffer_size`; `seed` only reseeds Python's global RNG (modelled by
the sampling oracle), so it is not a field. -/
structure ReplayBuffer where
  action_size : ℕ
  memory : List Experience
  buffer_size : ℕ
  batch_size : ℕ
deriving DecidableEq

/-- ReplayBuffer.__init__ (dqn_agent.py lines 135-149): empty deque of capacity
`buffer_size`. -/
def ReplayBuffer.init (action_size buffer_size batch_size seed : ℕ) : ReplayBuffer :=
  { action_size := action_size
  , memory := []
  , buffer_size := buffer_size
  , batch_size := batch_size }

/-- ReplayBuffer.add (dqn_agent.py lines 151-154): build the experience tuple
and append it to the deque. -/
def ReplayBuffer.add (buf : ReplayBuffer) (e : Experience) : ReplayBuffer :=
  { buf with memory := dequeAppend buf.buffer_size buf.memory e }

/-- Errors a call can raise.  `valueError` models Python's built-in
`ValueError`, which `random.sample(population, k)` raises when
`k > len(population)`.  `insufficientDataError` models the error class named by
the specification's error taxonomy; no such class exists in the source, the
constructor exists only to compare the spec's words with the code. -/
inductive PyError where
  | valueError : PyError
  | insufficientDataError : PyError
deriving DecidableEq

/-- ReplayBuffer.sample (dqn_agent.py lines 156-166):
`random.sample(self.memory, k=self.batch_size)` raises ValueError when the
population is smaller than `k`; otherwise the drawn experiences (indices given
by the RNG oracle `pick`, reduced modulo the occupancy) are stacked into
columns. -/
def ReplayBuffer.sample (buf : ReplayBuffer) (pick : ℕ → ℕ) : Except PyError Batch :=
  if buf.memory.length < buf.batch_size then
    Except.error PyError.valueError
  else
    Except.ok (toBatch ((List.range buf.batch_size).map
      (fun i => buf.memory.getD (pick i % buf.memory.length) default)))

/-- Agent state from dqn_agent.py lines 20-45: the two QNetworks, the replay
memory and the step counter.  The Adam optimizer lives in the abstract
optimizer state threaded through `Agent.step` and `Agent.learn`. -/
structure Agent where
  state_size : ℕ
  action_size : ℕ
  qnetwork_local : QNetwork
  qnetwork_target : QNetwork
  memory : ReplayBuffer
  t_step : ℕ
deriving DecidableEq

/-- Agent.__init__ (dqn_agent.py lines 22-45): both QNetworks are built by the
same deterministic initializer applied to the same
(state_size, action_size, seed) arguments; the buffer uses the module constants
BUFFER_SIZE and BATCH_SIZE; `t_step` starts at 0. -/
def Agent.init (initW : ℕ → ℕ → ℕ → QNetwork) (state_size action_size seed : ℕ) : Agent :=
  { state_size := state_size
  , action_size := action_size
  , qnetwork_local := initW state_size action_size seed
  , qnetwork_target := initW state_size action_size seed
  , memory := ReplayBuffer.init action_size BUFFER_SIZE BATCH_SIZE seed
  , t_step := 0 }

/-- Agent.soft_update (dqn_agent.py lines 96-107): for every corresponding
parameter pair, `target.data.copy_(tau*local.data + (1-tau)*target.data)`.
The in-place mutation is modelled functionally: the call returns the post-call
values of both models, and the local model is returned unchanged. -/
def softUpdateParams (tau : ℚ) (localP targetP : Vec) : Vec :=
  List.zipWith (fun lp tp => tau * lp + (1 - tau) * tp) localP targetP

/-- Soft update lifted to a weight matrix (rowwise `softUpdateParams`). -/
def softUpdateMat (tau : ℚ) (localW targetW : Mat) : Mat :=
  List.zipWith (softUpdateParams tau) localW targetW

/-- Agent.soft_update over the whole parameter lists of the two networks; the
first component is the (unmutated) local model, the second the updated target
model. -/
def Agent.soft_update (localM targetM : QNetwork) (tau : ℚ) : QNetwork × QNetwork :=
  (localM,
   { fc1w := softUpdateMat tau localM.fc1w targetM.fc1w
   , fc1b := softUpdateParams tau localM.fc1b targetM.fc1b
   , fc2w := softUpdateMat tau localM.fc2w targetM.fc2w
   , fc2b := softUpdateParams tau localM.fc2b targetM.fc2b
   , fc3w := softUpdateMat tau localM.fc3w targetM.fc3w
   , fc3b := softUpdateParams tau localM.fc3b targetM.fc3b
   , fc4w := softUpdateMat tau localM.fc4w targetM.fc4w
   , fc4b := softUpdateParams tau localM.fc4b targetM.fc4b })

/-- Elementwise maximum of a Q-value row, modelling `.max(1)[0]` in
dqn_agent.py line 71 (rows are nonempty in the source, so the fold's seed is
never the result). -/
def listMax (v : Vec) : ℚ := v.foldl max (v.headD 0)

/-- TD target for one sample, dqn_agent.py line 74:
`y = reward + gamma * Qsa_max * (1 - done)`. -/
def tdTarget (gamma r qmax dflag : ℚ) : ℚ := r + gamma * qmax * (1 - dflag)

/-- Elementwise TD-target computation over the aligned batch columns
(tensor arithmetic of dqn_agent.py line 74). -/
def tdTargets (gamma : ℚ) (rewards qmaxs dflags : Vec) : Vec :=
  (List.range rewards.length).map
    (fun i => tdTarget gamma (rewards.getD i 0) (qmaxs.getD i 0) (dflags.getD i 0))

/-- The targets computed at the top of Agent.learn (dqn_agent.py lines 71-74):
`Qsa_max` from the target network on the next states (detached, i.e. a frozen
oracle), then `y = rewards + gamma * Qsa_max * (1 - dones)`. -/
def learnTargets (tnet : QNetwork) (b : Batch) (gamma : ℚ) : Vec :=
  tdTargets gamma b.rewards
    (b.next_states.map (fun s => listMax (QNetwork.forward tnet s))) b.dones

/-- One inner epoch of Agent.learn (dqn_agent.py lines 81-94): a gradient
update of the local network against the fixed targets `y` (forward, SmoothL1
loss, zero_grad, backward, optimizer.step — all inside the abstract `gu`),
followed by a soft update of the target network with TAU. -/
def learnEpoch {O : Type} (gu : O → QNetwork → Batch → Vec → O × QNetwork)
    (b : Batch) (y : Vec) (s : O × QNetwork × QNetwork) : O × QNetwork × QNetwork :=
  let r := gu s.1 s.2.1 b y
  (r.1, r.2, (Agent.soft_update r.2 s.2.2 TAU).2)

/-- Agent.learn (dqn_agent.py lines 60-94): compute `Qsa_max` and `y` once from
the target network, then run `num_epoches = 10` iterations of gradient update
plus soft update on the same batch. -/
def Agent.learn {O : Type} (gu : O → QNetwork → Batch → Vec → O × QNetwork)
    (opt : O) (lnet tnet : QNetwork) (b : Batch) (gamma : ℚ) :
    O × QNetwork × QNetwork :=
  let y := learnTargets tnet b gamma
  (List.range 10).foldl (fun s _ => learnEpoch gu b y s) (opt, lnet, tnet)

/-- Agent.step (dqn_agent.py lines 47-58): store the experience, advance the
step counter modulo UPDATE_EVERY, and when the counter is 0 and the occupancy
exceeds BATCH_SIZE, sample a batch and learn with GAMMA.  The returned Bool
records whether a learning episode was triggered. -/
def Agent.step {O : Type} (gu : O → QNetwork → Batch → Vec → O × QNetwork)
    (opt : O) (a : Agent) (pick : ℕ → ℕ) (state : Vec) (action : ℕ)
    (reward : ℚ) (next_state : Vec) (done : Bool) :
    Except PyError (Agent × O × Bool) :=
  let mem := a.memory.add ⟨state, action, reward, next_state, done⟩
  let t := (a.t_step + 1) % UPDATE_EVERY
  if t = 0 then
    if BATCH_SIZE < mem.memory.length then
      match mem.sample pick with
      | Except.error e => Except.error e
      | Except.ok b =>
        let r := Agent.learn gu opt a.qnetwork_local a.qnetwork_target b GAMMA
        Except.ok ({ a with memory := mem, t_step := t,
                            qnetwork_local := r.2.1, qnetwork_target := r.2.2 },
                   r.1, true)
    else
      Except.ok ({ a with memory := mem, t_step := t }, opt, false)
  else
    Except.ok ({ a with memory := mem, t_step := t }, opt, false)

/-- First index of the maximal entry, modelling `np.argmax` (dqn_agent.py line
128): later indices replace the current best only on a strict improvement. -/
def argmaxIdx (v : Vec) : ℕ :=
  (List.range v.length).foldl
    (fun best i => if v.getD best 0 < v.getD i 0 then i else best) 0

/-- Agent.act (dqn_agent.py lines 109-130): evaluate the local network on the
state; if the uniform draw `r` of `random.random()` satisfies `r > eps` return
the argmax action, otherwise return the draw of
`random.choice(np.arange(action_size))` (modelled as `randA` reduced into
range).  Evaluation mode and `no_grad` are no-ops in the pure model. -/
def Agent.act (a : Agent) (state : Vec) (eps : ℚ) (r : ℚ) (randA : ℕ) : ℕ :=
  if eps < r then argmaxIdx (QNetwork.forward a.qnetwork_local state)
  else randA % a.action_size

/-- Instrumented gradient update: behaves like `gu` on the optimizer state and
the network, and additionally records every target vector `y` it is handed.
Used to observe how often, and with which targets, Agent.learn invokes the
gradient step. -/
def logGrad {O : Type} (gu : O → QNetwork → Batch → Vec → O × QNetwork) :
    (O × List Vec) → QNetwork → Batch → Vec → (O × List Vec) × QNetwork :=
  fun s net b y => (((gu s.1 net b y).1, s.2 ++ [y]), (gu s.1 net b y).2)

/-- Trivial gradient update (no optimizer state, parameters unchanged); used to
drive the end-to-end scenario, where only control flow matters. -/
def trivGrad : Unit → QNetwork → Batch → Vec → Unit × QNetwork :=
  fun _ net _ _ => ((), net)

/-- Constant index oracle for `random.sample`. -/
def pick0 : ℕ → ℕ := fun _ => 0

/-- QNetwork value with empty parameter lists (a degenerate deterministic
initialization, sufficient wherever only control flow matters). -/
def netZero : QNetwork := ⟨[], [], [], [], [], [], [], []⟩

/-- Agent of the end-to-end scenario: `Agent(state_size=4, action_size=2,
seed=0)` with a concrete deterministic initializer. -/
def agent0 : Agent := Agent.init (fun _ _ _ => netZero) 4 2 0

/-- Synthetic transition used by the end-to-end scenario (state dimension 4). -/
def tr0 : Experience := ⟨[0, 0, 0, 0], 0, 0, [0, 0, 0, 0], false⟩

/-- Driver loop: feed the transitions to Agent.step one by one, counting how
many steps triggered a learning episode; stops at the first raised error. -/
def runAgent (a : Agent) (trs : List Experience) : Except PyError (Agent × ℕ) :=
  trs.foldlM
    (fun p tr =>
      match Agent.step trivGrad () p.1 pick0 tr.state tr.action tr.reward
          tr.next_state tr.done with
      | Except.ok q => Except.ok (q.1, p.2 + (if q.2.2 then 1 else 0))
      | Except.error e => Except.error e)
    (a, 0)

/-- Number of learning episodes triggered by feeding `n` copies of the
synthetic transition to the scenario agent. -/
def scenarioLearnCount (n : ℕ) : Except PyError ℕ :=
  (runAgent agent0 (List.replicate n tr0)).map (fun p => p.2)

/-- Tiny concrete QNetwork whose action values at state `[1]` are `[0, 5]`
(all weights zero, output biases 0 and 5), so the greedy action is 1. -/
def netC8 : QNetwork := ⟨[[0]], [0], [[0]], [0], [[0]], [0], [[0], [0]], [0, 5]⟩

/-- Agent holding `netC8` as its local network (action_size 2). -/
def agentC8 : Agent := Agent.init (fun _ _ _ => netC8) 1 2 0

/-- Terminal experience used as a concrete witness input. -/
def expDone : Experience := ⟨[2], 3, 5, [4], true⟩

/-- Appending to a deque with `maxlen = m` never leaves more than `m`
elements. -/
lemma dequeAppend_length_le {α : Type} (m : ℕ) (q : List α) (x : α) :
    (dequeAppend m q x).length ≤ m := by
  simp only [dequeAppend, List.length_drop, List.length_append, List.length_cons,
    List.length_nil]
  omega

/-- Keeping only the last `m` elements commutes with later appends: the last
`m` of (last `m` of `A`, then `es`) are the last `m` of (`A`, then `es`). -/
lemma drop_chain {α : Type} (A es : List α) (m : ℕ) :
    ((A.drop (A.length - m)) ++ es).drop (((A.drop (A.length - m)) ++ es).length - m)
      = (A ++ es).drop ((A ++ es).length - m) := by
  rw [List.drop_append_eq_append_drop, List.drop_append_eq_append_drop, List.drop_drop]
  have e1 : A.length - m + ((A.drop (A.length - m) ++ es).length - m)
      = (A ++ es).length - m := by
    simp only [List.length_append, List.length_drop]
    omega
  have e2 : ((A.drop (A.length - m)) ++ es).length - m - (A.drop (A.length - m)).length
      = (A ++ es).length - m - A.length := by
    simp only [List.length_append, List.length_drop]
    omega
  rw [e1, e2]

/-- Folding deque appends starting from a list within capacity keeps exactly
the most recent `m` elements, in insertion order. -/
lemma foldl_dequeAppend {α : Type} (m : ℕ) (es : List α) : ∀ (q : List α), q.length ≤ m →
    es.foldl (dequeAppend m) q = (q ++ es).drop ((q ++ es).length - m) := by
  induction es with
  | nil =>
    intro q h
    simp [Nat.sub_eq_zero_of_le h]
  | cons x es ih =>
    intro q h
    rw [List.foldl_cons, ih (dequeAppend m q x) (dequeAppend_length_le m q x)]
    have hA : dequeAppend m q x = (q ++ [x]).drop ((q ++ [x]).length - m) := rfl
    rw [hA, drop_chain (q ++ [x]) es m]
    simp [List.append_assoc]

/-- Folding ReplayBuffer.add only changes the memory field, by deque
appends at the construction capacity. -/
lemma foldl_add_memory (es : List Experience) : ∀ (buf : ReplayBuffer),
    (es.foldl ReplayBuffer.add buf).memory
      = es.foldl (dequeAppend buf.buffer_size) buf.memory := by
  induction es with
  | nil => intro buf; rfl
  | cons e es ih =>
    intro buf
    rw [List.foldl_cons, List.foldl_cons, ih]
    rfl

/-- The element just appended to a deque of positive capacity is its last
element. -/
lemma dequeAppend_getLast {α : Type} (m : ℕ) (q : List α) (x : α) (hm : 0 < m) :
    (dequeAppend m q x).getLast? = some x := by
  show ((q ++ [x]).drop ((q ++ [x]).length - m)).getLast? = some x
  rw [List.drop_append_eq_append_drop]
  have h : (q ++ [x]).length - m - q.length = 0 := by
    simp only [List.length_append, List.length_cons, List.length_nil]
    omega
  rw [h, List.drop_zero]
  exact List.getLast?_concat _

/-- Index-wise description of the elementwise TD-target computation. -/
lemma tdTargets_getD (gamma : ℚ) (r q d : Vec) (i : ℕ) (h : i < r.length) :
    (tdTargets gamma r q d).getD i 0
      = tdTarget gamma (r.getD i 0) (q.getD i 0) (d.getD i 0) := by
  unfold tdTargets
  rw [List.getD_eq_getElem _ _ (by simpa using h)]
  rw [List.getElem_map]
  simp [List.getElem_range]

/-- Index-wise description of a rational zipWith. -/
lemma zipWith_getD_q (f : ℚ → ℚ → ℚ) (as bs : Vec) (i : ℕ)
    (h1 : i < as.length) (h2 : i < bs.length) :
    (List.zipWith f as bs).getD i 0 = f (as.getD i 0) (bs.getD i 0) := by
  rw [List.getD_eq_getElem _ _ (by simp [List.length_zipWith, lt_min_iff]; exact ⟨h1, h2⟩)]
  rw [List.getElem_zipWith]
  rw [List.getD_eq_getElem _ _ h1, List.getD_eq_getElem _ _ h2]

/-- Soft update with blend factor 0 leaves the target parameters unchanged. -/
lemma softUpdateParams_zero (as bs : Vec) (h : as.length = bs.length) :
    softUpdateParams 0 as bs = bs := by
  induction as generalizing bs with
  | nil =>
    cases bs with
    | nil => rfl
    | cons b bs => simp at h
  | cons a as ih =>
    cases bs with
    | nil => simp at h
    | cons b bs =>
      have ht : softUpdateParams 0 as bs = bs := ih bs (by simpa using h)
      show ((0 : ℚ) * a + (1 - 0) * b) :: softUpdateParams 0 as bs = b :: bs
      rw [ht]
      norm_num

/-- Soft update with blend factor 1 replaces the target parameters by the
local ones. -/
lemma softUpdateParams_one (as bs : Vec) (h : as.length = bs.length) :
    softUpdateParams 1 as bs = as := by
  induction as generalizing bs with
  | nil => rfl
  | cons a as ih =>
    cases bs with
    | nil => simp at h
    | cons b bs =>
      have ht : softUpdateParams 1 as bs = as := ih bs (by simpa using h)
      show ((1 : ℚ) * a + (1 - 1) * b) :: softUpdateParams 1 as bs = a :: as
      rw [ht]
      norm_num

/-- A convex combination with coefficient in [0,1] lies between its two
endpoints. -/
lemma convex_bounds (lp tp tau : ℚ) (h0 : 0 ≤ tau) (h1 : tau ≤ 1) :
    min tp lp ≤ tau * lp + (1 - tau) * tp ∧ tau * lp + (1 - tau) * tp ≤ max tp lp := by
  rcases le_total tp lp with h | h
  · rw [min_eq_left h, max_eq_right h]
    constructor
    · nlinarith [mul_nonneg h0 (sub_nonneg.mpr h)]
    · nlinarith [mul_nonneg (sub_nonneg.mpr h1) (sub_nonneg.mpr h)]
  · rw [min_eq_right h, max_eq_left h]
    constructor
    · nlinarith [mul_nonneg (sub_nonneg.mpr h1) (sub_nonneg.mpr h)]
    · nlinarith [mul_nonneg h0 (sub_nonneg.mpr h)]

/-- Control-flow characterization of Agent.step: when the buffer was built
with the module constant BATCH_SIZE (as Agent.__init__ does), the call never
raises; the stored memory is the post-add deque, and the learn branch runs
exactly when the advanced counter is 0 and the post-add occupancy strictly
exceeds BATCH_SIZE. -/
lemma step_ok {O : Type} (gu : O → QNetwork → Batch → Vec → O × QNetwork) (opt : O)
    (a : Agent) (pick : ℕ → ℕ) (s : Vec) (act : ℕ) (rwd : ℚ) (ns : Vec) (d : Bool)
    (hbs : a.memory.batch_size = BATCH_SIZE) :
    ∃ a2 o2 flag, Agent.step gu opt a pick s act rwd ns d = Except.ok (a2, o2, flag)
      ∧ (flag = true ↔ ((a.t_step + 1) % UPDATE_EVERY = 0
          ∧ BATCH_SIZE < (a.memory.add ⟨s, act, rwd, ns, d⟩).memory.length))
      ∧ a2.memory = a.memory.add ⟨s, act, rwd, ns, d⟩ := by
  simp only [Agent.step]
  split
  case isTrue h1 =>
    split
    case isTrue h2 =>
      have hok : ∃ B, (a.memory.add ⟨s, act, rwd, ns, d⟩).sample pick = Except.ok B := by
        unfold ReplayBuffer.sample
        rw [if_neg]
        · exact ⟨_, rfl⟩
        · have hb : (a.memory.add ⟨s, act, rwd, ns, d⟩).batch_size = BATCH_SIZE := hbs
          omega
      obtain ⟨B, hB⟩ := hok
      rw [hB]
      exact ⟨_, _, true, rfl, by simp [h1, h2], rfl⟩
    case isFalse h2 =>
      exact ⟨_, _, false, rfl, by simp [h1, h2], rfl⟩
  case isFalse h1 =>
    exact ⟨_, _, false, rfl, by simp [h1], rfl⟩

/-- C1: in Agent.learn, for every sampled transition whose done flag is true,
the computed TD target `y` equals that transition's reward exactly, for every
gamma and every target network: the `(1 - done)` factor zeroes the
bootstrapped term. -/
theorem td_target_terminal (gamma : ℚ) (tnet : QNetwork) (es : List Experience)
    (i : ℕ) (h : i < es.length) (hd : (es.getD i default).done = true) :
    (learnTargets tnet (toBatch es) gamma).getD i 0 = (es.getD i default).reward := by
  have hr : i < (toBatch es).rewards.length := by
    show i < (es.map Experience.reward).length
    simpa using h
  unfold learnTargets
  rw [tdTargets_getD _ _ _ _ _ hr]
  have hdone : (toBatch es).dones.getD i 0 = 1 := by
    show (es.map (fun e => if e.done then (1 : ℚ) else 0)).getD i 0 = 1
    rw [List.getD_eq_getElem _ _ (by simpa using h), List.getElem_map]
    rw [List.getD_eq_getElem _ _ h] at hd
    simp [hd]
  have hrew : (toBatch es).rewards.getD i 0 = (es.getD i default).reward := by
    show (es.map Experience.reward).getD i 0 = _
    rw [List.getD_eq_getElem _ _ (by simpa using h), List.getElem_map]
    rw [List.getD_eq_getElem _ _ h]
  rw [hdone, hrew]
  unfold tdTarget
  ring

/-- Witness for C1 at a concrete terminal transition and gamma = 7. -/
theorem td_target_terminal_witness :
    (0 : ℕ) < ([expDone] : List Experience).length
  ∧ (([expDone] : List Experience).getD 0 default).done = true
  ∧ (learnTargets netZero (toBatch [expDone]) 7).getD 0 0
      = (([expDone] : List Experience).getD 0 default).reward :=
  ⟨by decide, by decide, td_target_terminal 7 netZero [expDone] 0 (by decide) (by decide)⟩

/-- C2: Agent.step triggers a learning episode (sample plus learn) exactly
when the step counter, incremented modulo UPDATE_EVERY, equals 0 and the
post-add buffer occupancy strictly exceeds BATCH_SIZE; in every case the step
returns successfully (no error is raised). -/
theorem step_learn_gate {O : Type} (gu : O → QNetwork → Batch → Vec → O × QNetwork)
    (opt : O) (a : Agent) (pick : ℕ → ℕ) (s : Vec) (act : ℕ) (rwd : ℚ) (ns : Vec)
    (d : Bool) (hbs : a.memory.batch_size = BATCH_SIZE) :
    ∃ a2 o2 flag, Agent.step gu opt a pick s act rwd ns d = Except.ok (a2, o2, flag)
      ∧ (flag = true ↔ ((a.t_step + 1) % UPDATE_EVERY = 0
          ∧ BATCH_SIZE < (a.memory.add ⟨s, act, rwd, ns, d⟩).memory.length)) := by
  obtain ⟨a2, o2, flag, he, hiff, _⟩ := step_ok gu opt a pick s act rwd ns d hbs
  exact ⟨a2, o2, flag, he, hiff⟩

/-- Witness for C2 on the fresh scenario agent and a synthetic transition. -/
theorem step_learn_gate_witness :
    agent0.memory.batch_size = BATCH_SIZE
  ∧ ∃ a2 o2 flag,
      Agent.step trivGrad () agent0 pick0 [0, 0, 0, 0] 0 0 [0, 0, 0, 0] false
        = Except.ok (a2, o2, flag)
      ∧ (flag = true ↔ ((agent0.t_step + 1) % UPDATE_EVERY = 0
          ∧ BATCH_SIZE
              < (agent0.memory.add ⟨[0, 0, 0, 0], 0, 0, [0, 0, 0, 0], false⟩).memory.length)) :=
  ⟨rfl, step_learn_gate trivGrad () agent0 pick0 [0, 0, 0, 0] 0 0 [0, 0, 0, 0] false rfl⟩

/-- C3: for every sequence of adds into a fresh ReplayBuffer, the occupancy
never exceeds the capacity, and the surviving contents are exactly the most
recent `cap` transitions in insertion order (the oldest are evicted first). -/
theorem buffer_capacity_fifo (actS cap bs seed : ℕ) (es : List Experience) :
    (es.foldl ReplayBuffer.add (ReplayBuffer.init actS cap bs seed)).memory
        = es.drop (es.length - cap)
  ∧ (es.foldl ReplayBuffer.add (ReplayBuffer.init actS cap bs seed)).memory.length
        ≤ cap := by
  have h := foldl_dequeAppend cap es ([] : List Experience) (by simp)
  have hm : (es.foldl ReplayBuffer.add (ReplayBuffer.init actS cap bs seed)).memory
      = es.drop (es.length - cap) := by
    rw [foldl_add_memory]
    show es.foldl (dequeAppend cap) [] = _
    simpa using h
  refine ⟨hm, ?_⟩
  rw [hm, List.length_drop]
  omega

/-- C10: at Agent construction, the local and target networks receive
identical parameters: both are the value of the same deterministic
initializer (the seeded QNetwork constructor) at the same arguments. -/
theorem init_networks_equal (initW : ℕ → ℕ → ℕ → QNetwork) (s a seed : ℕ) :
    (Agent.init initW s a seed).qnetwork_local
      = (Agent.init initW s a seed).qnetwork_target := rfl

/-- C4 counterexample: sampling an under-full buffer raises Python's built-in
ValueError (from `random.sample`), not an `InsufficientDataError` — no such
class exists in the source. -/
theorem sample_error_name_cex :
    ReplayBuffer.sample ⟨2, [], BUFFER_SIZE, BATCH_SIZE⟩ pick0
        = Except.error PyError.valueError
  ∧ PyError.valueError ≠ PyError.insufficientDataError := by
  exact ⟨rfl, by decide⟩

/-- C4 amended: sampling a buffer whose occupancy is below its batch size
raises an error — Python's ValueError — and no sampling error ever surfaces
through Agent.step, whose occupancy gate prevents sampling an under-full
buffer. -/
theorem sample_underfull_raises :
    (∀ (buf : ReplayBuffer) (pick : ℕ → ℕ), buf.memory.length < buf.batch_size →
      buf.sample pick = Except.error PyError.valueError)
  ∧ (∀ (O : Type) (gu : O → QNetwork → Batch → Vec → O × QNetwork) (opt : O)
      (a : Agent) (pick : ℕ → ℕ) (s : Vec) (act : ℕ) (rwd : ℚ) (ns : Vec) (d : Bool),
      a.memory.batch_size = BATCH_SIZE →
      ∀ e, Agent.step gu opt a pick s act rwd ns d ≠ Except.error e) := by
  constructor
  · intro buf pick h
    unfold ReplayBuffer.sample
    rw [if_pos h]
  · intro O gu opt a pick s act rwd ns d hbs e
    obtain ⟨a2, o2, flag, he, _, _⟩ := step_ok gu opt a pick s act rwd ns d hbs
    rw [he]
    intro hcon
    exact Except.noConfusion hcon

/-- Witness for C4 amended: the empty fresh buffer errors on sample, and a
concrete step call on the fresh agent raises nothing. -/
theorem sample_underfull_raises_witness :
    (ReplayBuffer.init 2 BUFFER_SIZE BATCH_SIZE 0).memory.length
        < (ReplayBuffer.init 2 BUFFER_SIZE BATCH_SIZE 0).batch_size
  ∧ (ReplayBuffer.init 2 BUFFER_SIZE BATCH_SIZE 0).sample pick0
        = Except.error PyError.valueError
  ∧ agent0.memory.batch_size = BATCH_SIZE
  ∧ Agent.step trivGrad () agent0 pick0 [0, 0, 0, 0] 0 0 [0, 0, 0, 0] false
        ≠ Except.error PyError.valueError :=
  ⟨by decide,
   sample_underfull_raises.1 (ReplayBuffer.init 2 BUFFER_SIZE BATCH_SIZE 0) pick0 (by decide),
   rfl,
   sample_underfull_raises.2 Unit trivGrad () agent0 pick0 [0, 0, 0, 0] 0 0 [0, 0, 0, 0]
     false rfl PyError.valueError⟩

/-- C5: soft update is the elementwise convex blend
`tau * local + (1 - tau) * target`: for tau in [0,1] every resulting entry
lies between the original target and local entries, tau = 0 leaves the target
unchanged, tau = 1 copies the local parameters, and the local model is never
mutated. -/
theorem soft_update_convex (localP targetP : Vec) (tau : ℚ)
    (hlen : localP.length = targetP.length) (h0 : 0 ≤ tau) (h1 : tau ≤ 1) :
    (softUpdateParams tau localP targetP).length = targetP.length
  ∧ (∀ i, i < targetP.length →
      (softUpdateParams tau localP targetP).getD i 0
        = tau * localP.getD i 0 + (1 - tau) * targetP.getD i 0)
  ∧ (∀ i, i < targetP.length →
      min (targetP.getD i 0) (localP.getD i 0)
          ≤ (softUpdateParams tau localP targetP).getD i 0
      ∧ (softUpdateParams tau localP targetP).getD i 0
          ≤ max (targetP.getD i 0) (localP.getD i 0))
  ∧ (tau = 0 → softUpdateParams tau localP targetP = targetP)
  ∧ (tau = 1 → softUpdateParams tau localP targetP = localP)
  ∧ (∀ (L T : QNetwork), (Agent.soft_update L T tau).1 = L) := by
  have hfor : ∀ i, i < targetP.length →
      (softUpdateParams tau localP targetP).getD i 0
        = tau * localP.getD i 0 + (1 - tau) * targetP.getD i 0 := by
    intro i hi
    exact zipWith_getD_q _ _ _ _ (by omega) hi
  refine ⟨?_, hfor, ?_, ?_, ?_, ?_⟩
  · simp [softUpdateParams, List.length_zipWith, hlen]
  · intro i hi
    rw [hfor i hi]
    exact convex_bounds _ _ _ h0 h1
  · intro h
    subst h
    exact softUpdateParams_zero _ _ hlen
  · intro h
    subst h
    exact softUpdateParams_one _ _ hlen
  · intro L T
    rfl

/-- Witness for C5 at tau = 1: the updated parameters equal the local ones. -/
theorem soft_update_convex_witness :
    ([(1 : ℚ), 3] : Vec).length = ([(5 : ℚ), 2] : Vec).length
  ∧ (0 : ℚ) ≤ 1 ∧ (1 : ℚ) ≤ 1
  ∧ softUpdateParams 1 [1, 3] [5, 2] = [1, 3] :=
  ⟨rfl, by norm_num, by norm_num,
   (soft_update_convex [1, 3] [5, 2] 1 rfl (by norm_num) (by norm_num)).2.2.2.2.1 rfl⟩

/-- C6: Agent.learn is exactly ten iterations — per epoch one gradient update
of the local network followed by one soft update of the target network, on the
one sampled batch — against TD targets computed from the target network once,
before the loop: the instrumented run shows the gradient step is invoked
exactly 10 times, every time with the same target vector computed from the
pre-call target network. -/
theorem learn_epoch_structure {O : Type} (gu : O → QNetwork → Batch → Vec → O × QNetwork)
    (opt : O) (lnet tnet : QNetwork) (b : Batch) (gamma : ℚ) :
    Agent.learn gu opt lnet tnet b gamma
        = (learnEpoch gu b (learnTargets tnet b gamma))^[10] (opt, lnet, tnet)
  ∧ (Agent.learn (logGrad gu) (opt, ([] : List Vec)) lnet tnet b gamma).1.2
        = List.replicate 10 (learnTargets tnet b gamma) := by
  exact ⟨rfl, rfl⟩

/-- C7 counterexample: the agent is configured with state_size = 4, yet a step
with a 3-dimensional state raises nothing — the call returns successfully,
silently storing the mismatched transition unchanged (and triggering no
learning); no ShapeMismatchError check exists in the code. -/
theorem step_no_shape_check_cex :
    agent0.state_size = 4
  ∧ ([(1 : ℚ), 2, 3] : Vec).length ≠ agent0.state_size
  ∧ (Agent.step trivGrad () agent0 pick0 [1, 2, 3] 0 0 [1, 2, 3] false).toOption.map
      (fun r => (r.1.memory.memory, r.2.2))
    = some ([⟨[1, 2, 3], 0, 0, [1, 2, 3], false⟩], false) := by
  refine ⟨rfl, by decide, ?_⟩
  rfl

/-- C7 amended: Agent.step performs no dimensionality validation: for every
input, of any dimension, it raises no error and appends the transition to the
replay memory exactly as given (no reshaping or truncation); the source
defines no ShapeMismatchError. -/
theorem step_stores_unvalidated {O : Type} (gu : O → QNetwork → Batch → Vec → O × QNetwork)
    (opt : O) (a : Agent) (pick : ℕ → ℕ) (s : Vec) (act : ℕ) (rwd : ℚ) (ns : Vec)
    (d : Bool) (hbs : a.memory.batch_size = BATCH_SIZE)
    (hcap : 0 < a.memory.buffer_size) :
    ∃ a2 o2 flag, Agent.step gu opt a pick s act rwd ns d = Except.ok (a2, o2, flag)
      ∧ a2.memory.memory.getLast? = some ⟨s, act, rwd, ns, d⟩ := by
  obtain ⟨a2, o2, flag, he, _, hmem⟩ := step_ok gu opt a pick s act rwd ns d hbs
  refine ⟨a2, o2, flag, he, ?_⟩
  rw [hmem]
  exact dequeAppend_getLast _ _ _ hcap

/-- Witness for C7 amended: a 3-dimensional state on the state_size-4 agent is
stored verbatim without any error. -/
theorem step_stores_unvalidated_witness :
    agent0.memory.batch_size = BATCH_SIZE
  ∧ 0 < agent0.memory.buffer_size
  ∧ ∃ a2 o2 flag,
      Agent.step trivGrad () agent0 pick0 [1, 2, 3] 0 0 [1, 2, 3] false
        = Except.ok (a2, o2, flag)
      ∧ a2.memory.memory.getLast? = some ⟨[1, 2, 3], 0, 0, [1, 2, 3], false⟩ :=
  ⟨rfl, by decide,
   step_stores_unvalidated trivGrad () agent0 pick0 [1, 2, 3] 0 0 [1, 2, 3] false rfl
     (by decide)⟩

/-- C8 counterexample: with epsilon = 0, the branch `random.random() > eps`
fails when the uniform draw is exactly 0, so two calls on the identical state
with unchanged parameters can return different actions: a positive draw
returns the greedy action 1, the zero draw returns the random choice 0. -/
theorem act_zero_draw_cex :
    Agent.act agentC8 [1] 0 (1 / 2) 0 = 1 ∧ Agent.act agentC8 [1] 0 0 0 = 0 := by
  constructor
  · norm_num [Agent.act, agentC8, Agent.init, netC8, QNetwork.forward, linear, dot,
      leakyRelu, argmaxIdx, List.range_succ]
  · norm_num [Agent.act, agentC8, Agent.init, netC8]

/-- C8 amended: whenever both underlying uniform draws are strictly positive
(every draw of `random.random()` except exactly 0.0), two calls of Agent.act
with epsilon = 0 on the identical state and unchanged parameters take the
greedy branch and return the same action. -/
theorem act_greedy_deterministic (a : Agent) (state : Vec) (r1 r2 : ℚ) (ra1 ra2 : ℕ)
    (h1 : 0 < r1) (h2 : 0 < r2) :
    Agent.act a state 0 r1 ra1 = Agent.act a state 0 r2 ra2 := by
  unfold Agent.act
  rw [if_pos h1, if_pos h2]

/-- Witness for C8 amended at two distinct positive draws and distinct random
fallbacks. -/
theorem act_greedy_deterministic_witness :
    (0 : ℚ) < 1 / 2 ∧ (0 : ℚ) < 1 / 3
  ∧ Agent.act agentC8 [1] 0 (1 / 2) 0 = Agent.act agentC8 [1] 0 (1 / 3) 1 :=
  ⟨by norm_num, by norm_num,
   act_greedy_deterministic agentC8 [1] (1 / 2) (1 / 3) 0 1 (by norm_num) (by norm_num)⟩

/-- C9 counterexample: on the end-to-end scenario agent (state_size 4,
action_size 2, seed 0, UPDATE_EVERY 4, BATCH_SIZE 64), 65 steps trigger no
learning episode at all: steps 4, 8, ..., 64 are counter-aligned but occupancy
never strictly exceeds 64 there, and step 65 is not aligned. -/
theorem scenario65_no_learn_cex : scenarioLearnCount 65 = Except.ok 0 := by
  rfl

/-- C9 amended: on the same scenario, 68 steps trigger learning at least once:
the first learning episode happens exactly at step 68, the first
UPDATE_EVERY-aligned step whose post-add occupancy strictly exceeds
BATCH_SIZE. -/
theorem scenario68_first_learn :
    scenarioLearnCount 67 = Except.ok 0 ∧ scenarioLearnCount 68 = Except.ok 1 := by
  exact ⟨rfl, rfl⟩
